/-
Verification of the Starred-Repositories-Retriever backend.

The whole program lives in src/repositories/router.py. This file gives a
shallow embedding of that module: JSON values become an inductive type,
Python dictionaries become ordered association lists (Python dictionaries
preserve insertion order, which is part of the observable contract here),
Python truthiness becomes an explicit predicate, HTTP exceptions become an
error type, and unhandled Python exceptions (AttributeError) become the
`none` branch of an `Option`. Upstream HTTP responses are passed in as
explicit data, so each request handler is a pure function of the upstream
behaviour.
-/
import Mathlib

set_option autoImplicit false
set_option linter.unusedVariables false

namespace StarRetriever

/-- JSON values, as produced by `response.json()`. Numbers are modelled as
integers; no claim depends on fractional values. `obj` keeps its fields as
an ordered association list, mirroring Python dictionaries. -/
inductive Json where
  | null : Json
  | bool (b : Bool) : Json
  | num (n : Int) : Json
  | str (s : String) : Json
  | arr (elems : List Json) : Json
  | obj (fields : List (String × Json)) : Json

/-- A raw repository record: a Python dictionary with string keys,
in insertion order. -/
abbrev RawRepo : Type := List (String × Json)

/-- Python truthiness (`bool(x)`) on JSON values: None, False, 0, the empty
string, the empty list and the empty dictionary are falsy. -/
def truthy : Json → Bool
  | .null => false
  | .bool b => b
  | .num n => n != 0
  | .str s => s != ""
  | .arr elems => !elems.isEmpty
  | .obj fields => !fields.isEmpty

/-- Python `d.get(k)` on a dictionary: the value of the first matching key,
or None (`Json.null`) when the key is absent. -/
def dictGet (d : List (String × Json)) (k : String) : Json :=
  match d.lookup k with
  | some v => v
  | none => Json.null

/-- The per-entry projection built in the body of `parse_starred_repos`
(router.py lines 128 to 143): the four fixed fields, then, when the raw
record carries a non-null license, the license name inserted immediately
before the "topics" key. A non-null license that is not a dictionary makes
the Python expression `repo.get("license").get("name")` raise an
AttributeError; that crash is the `none` result. -/
def build_repo_dict (repo : RawRepo) : Option (List (String × Json)) :=
  let repo_dict : List (String × Json) :=
    [("name", dictGet repo "name"),
     ("description", dictGet repo "description"),
     ("URL", dictGet repo "html_url"),
     ("topics", dictGet repo "topics")]
  match dictGet repo "license" with
  | Json.null => some repo_dict
  | Json.obj fields =>
    let license_index := List.indexOf "topics" (repo_dict.map Prod.fst)
    some (repo_dict.insertIdx license_index ("license", dictGet fields "name"))
  | _ => none

/-- Transformer `parse_starred_repos` (router.py lines 117 to 148): iterate
the raw list in order, skip entries whose "private" value is truthy, and
collect the per-entry projection for the rest. A `none` result is the Python
loop raising (which aborts the whole call). -/
def parse_starred_repos : List RawRepo → Option (List (List (String × Json)))
  | [] => some []
  | repo :: rest =>
    if truthy (dictGet repo "private") then
      parse_starred_repos rest
    else
      match build_repo_dict repo with
      | none => none
      | some repo_dict =>
        match parse_starred_repos rest with
        | none => none
        | some acc => some (repo_dict :: acc)

/-- A FastAPI `HTTPException(status_code, detail)`. -/
structure HTTPError where
  status_code : Nat
  detail : String

/-- The three upstream GitHub responses one request can trigger, passed in
as explicit data: the token-exchange POST, the user GET, and the
starred-repositories GET. The two JSON bodies that are read with `.get` are
modelled as dictionaries, and the starred body as the list of raw records
the provider returns. -/
structure Upstream where
  access_token_res_status : Nat
  access_token_res_json : List (String × Json)
  user_info_res_status : Nat
  user_info_res_json : List (String × Json)
  starred_repos_res_status : Nat
  starred_repos_res_json : List RawRepo

/-- Token exchanger `fetch_access_token` (router.py lines 46 to 72): on a
non-200 provider status, raise an HTTPException carrying that status; on
200, return `response.json().get("access_token")` (None when absent). -/
def fetch_access_token (u : Upstream) : Except HTTPError Json :=
  if u.access_token_res_status != 200 then
    Except.error
      { status_code := u.access_token_res_status,
        detail := "Access token retrieving failed" }
  else
    Except.ok (dictGet u.access_token_res_json "access_token")

/-- Identity fetcher `fetch_user` (router.py lines 75 to 93). -/
def fetch_user (u : Upstream) : Except HTTPError Json :=
  if u.user_info_res_status != 200 then
    Except.error
      { status_code := u.user_info_res_status,
        detail := "Failed to retrieve user information." }
  else
    Except.ok (dictGet u.user_info_res_json "login")

/-- Starred-repository fetcher `fetch_starred_repos` (router.py lines 96 to
112); the username only selects the URL, the response itself is upstream
data. -/
def fetch_starred_repos (user : Json) (u : Upstream) : Except HTTPError (List RawRepo) :=
  if u.starred_repos_res_status != 200 then
    Except.error
      { status_code := u.starred_repos_res_status,
        detail := "Failed to retrieve starred repositories information." }
  else
    Except.ok u.starred_repos_res_json

/-- Outcome of one request to the starred-repositories endpoint. `ok` is the
200 body with its two fields; `httpError` is a raised HTTPException;
`pythonError` is an unhandled Python exception escaping the handler. -/
inductive ReqResult where
  | ok (starred_repositories_count : Nat)
       (starred_repositories : List (List (String × Json))) : ReqResult
  | httpError (status_code : Nat) (detail : String) : ReqResult
  | pythonError : ReqResult

/-- Orchestrator `show_starred_repositories` (router.py lines 157 to 180):
exchange the code, reject a falsy token with 400, fetch the identity, fetch
the starred list, and answer with the raw length as the count and the
parsed list as the entries. -/
def show_starred_repositories (u : Upstream) : ReqResult :=
  match fetch_access_token u with
  | Except.error e => ReqResult.httpError e.status_code e.detail
  | Except.ok access_token =>
    if !truthy access_token then
      ReqResult.httpError 400 "Access token missing."
    else
      match fetch_user u with
      | Except.error e => ReqResult.httpError e.status_code e.detail
      | Except.ok user =>
        match fetch_starred_repos user u with
        | Except.error e => ReqResult.httpError e.status_code e.detail
        | Except.ok starred_repos_info =>
          match parse_starred_repos starred_repos_info with
          | none => ReqResult.pythonError
          | some parsed =>
            ReqResult.ok starred_repos_info.length parsed

/-- Python `os.environ.get` over an explicit environment. -/
def envGet (env : List (String × String)) (k : String) : Option String :=
  env.lookup k

/-- Python `not x` on an optional string: true for a missing variable and
for the empty string. -/
def strFalsy : Option String → Bool
  | none => true
  | some s => s == ""

/-- Result of importing the router module. -/
inductive StartupResult where
  | started (client_id client_secret : Option String) : StartupResult
  | fatal (msg : String) : StartupResult

/-- Module-level startup code of router.py (lines 16 to 25): read ID and
SECRET from the environment and raise a ValueError when either is missing
or empty. -/
def module_init (env : List (String × String)) : StartupResult :=
  let client_id := envGet env "ID"
  let client_secret := envGet env "SECRET"
  if strFalsy client_id || strFalsy client_secret then
    StartupResult.fatal
      "GitHub OAuth credentials missing. Please set ID and SECRET in the .env file."
  else
    StartupResult.started client_id client_secret

/-- A request can only be served by a process whose module import
succeeded: `none` means the process never came up, so no request is
answered at all. -/
def serve (env : List (String × String)) (u : Upstream) : Option ReqResult :=
  match module_init env with
  | StartupResult.fatal _ => none
  | StartupResult.started _ _ => some (show_starred_repositories u)

/-- An HTTP redirect answer. -/
structure RedirectInstruction where
  status_code : Nat
  url : String

/-- Modelled from the spec: `RedirectResponse` is the HTTP framework
redirect constructor, third-party code that is not under src/; spec
section 6 fixes the login answer as a 302 redirect to the constructed
URL. -/
def RedirectResponse (url : String) : RedirectInstruction :=
  { status_code := 302, url := url }

/-- Login endpoint `login` (router.py lines 31 to 43): redirect to the
GitHub authorize URL with the configured client id embedded as the
client_id query parameter. -/
def login (client_id : String) : RedirectInstruction :=
  RedirectResponse ("https://github.com/login/oauth/authorize?client_id=" ++ client_id)

/-- A record survives the private filter exactly when its "private" value is
falsy (router.py line 125). -/
def isPublic (r : RawRepo) : Bool :=
  !truthy (dictGet r "private")

/-- The license value of a record is one the per-entry projection can
process without raising: absent or null, or a dictionary. -/
def licenseOk (r : RawRepo) : Bool :=
  match dictGet r "license" with
  | Json.null => true
  | Json.obj _ => true
  | _ => false

theorem dictGet_eq_null_of_not_mem (d : List (String × Json)) (k : String)
    (h : k ∉ d.map Prod.fst) : dictGet d k = Json.null := by
  induction d with
  | nil => rfl
  | cons p rest ih =>
    obtain ⟨pk, pv⟩ := p
    simp only [List.map_cons, List.mem_cons, not_or] at h
    have hb1 : (k == pk) = false := beq_eq_false_iff_ne.mpr h.1
    have hb2 : (pk == k) = false := beq_eq_false_iff_ne.mpr (Ne.symm h.1)
    have ih' := ih h.2
    simp only [dictGet, List.lookup, hb1, hb2] at ih' ⊢
    exact ih'

theorem build_repo_dict_of_null (r : RawRepo) (h : dictGet r "license" = Json.null) :
    build_repo_dict r =
      some [("name", dictGet r "name"), ("description", dictGet r "description"),
            ("URL", dictGet r "html_url"), ("topics", dictGet r "topics")] := by
  unfold build_repo_dict
  rw [h]

theorem build_repo_dict_of_obj (r : RawRepo) (fields : List (String × Json))
    (h : dictGet r "license" = Json.obj fields) :
    build_repo_dict r =
      some [("name", dictGet r "name"), ("description", dictGet r "description"),
            ("URL", dictGet r "html_url"), ("license", dictGet fields "name"),
            ("topics", dictGet r "topics")] := by
  unfold build_repo_dict
  rw [h]
  rfl

theorem build_repo_dict_isSome_of_licenseOk (r : RawRepo) (h : licenseOk r = true) :
    ∃ d, build_repo_dict r = some d := by
  unfold licenseOk at h
  split at h
  · exact ⟨_, build_repo_dict_of_null r (by assumption)⟩
  · exact ⟨_, build_repo_dict_of_obj r _ (by assumption)⟩
  · exact absurd h (by simp)

theorem parse_cons_private (r : RawRepo) (rest : List RawRepo)
    (h : truthy (dictGet r "private") = true) :
    parse_starred_repos (r :: rest) = parse_starred_repos rest := by
  simp [parse_starred_repos, h]

theorem parse_cons_public (r : RawRepo) (rest : List RawRepo)
    (d : List (String × Json))
    (hpriv : truthy (dictGet r "private") = false)
    (hb : build_repo_dict r = some d) :
    parse_starred_repos (r :: rest) =
      match parse_starred_repos rest with
      | none => none
      | some acc => some (d :: acc) := by
  simp [parse_starred_repos, hpriv, hb]

theorem parse_cons_crash (r : RawRepo) (rest : List RawRepo)
    (hpriv : truthy (dictGet r "private") = false)
    (hb : build_repo_dict r = none) :
    parse_starred_repos (r :: rest) = none := by
  simp [parse_starred_repos, hpriv, hb]

/-- Characterization of a successful transformer run: the output is the
per-entry projection of exactly the surviving (falsy-private) records, in
order, one output entry per surviving record. -/
theorem parse_spec (l : List RawRepo) (out : List (List (String × Json)))
    (h : parse_starred_repos l = some out) :
    out = (l.filter isPublic).filterMap build_repo_dict ∧
    out.length = (l.filter isPublic).length := by
  induction l generalizing out with
  | nil =>
    simp only [parse_starred_repos, Option.some.injEq] at h
    subst h
    simp
  | cons r rest ih =>
    by_cases hp : truthy (dictGet r "private") = true
    · rw [parse_cons_private r rest hp] at h
      have hpub : isPublic r = false := by simp [isPublic, hp]
      simpa [hpub] using ih out h
    · have hp' : truthy (dictGet r "private") = false := by
        cases hv : truthy (dictGet r "private")
        · rfl
        · exact absurd hv hp
      have hpub : isPublic r = true := by simp [isPublic, hp']
      cases hb : build_repo_dict r with
      | none => rw [parse_cons_crash r rest hp' hb] at h; exact Option.noConfusion h
      | some d =>
        rw [parse_cons_public r rest d hp' hb] at h
        cases hrest : parse_starred_repos rest with
        | none => rw [hrest] at h; exact Option.noConfusion h
        | some acc =>
          rw [hrest] at h
          obtain ⟨h1, h2⟩ := ih acc hrest
          have hout : out = d :: acc := by
            simpa using h.symm
          subst hout
          have hf : List.filter isPublic (r :: rest) = r :: List.filter isPublic rest := by
            simp [List.filter_cons, hpub]
          constructor
          · simp only [hf, List.filterMap_cons, hb, h1]
          · simp only [hf, List.length_cons, h2]

/-- A list whose records all carry a processable license is transformed
without raising. -/
theorem parse_total (l : List RawRepo) (h : ∀ r ∈ l, licenseOk r = true) :
    ∃ out, parse_starred_repos l = some out := by
  induction l with
  | nil => exact ⟨[], rfl⟩
  | cons r rest ih =>
    obtain ⟨out, hout⟩ := ih (fun x hx => h x (List.mem_cons_of_mem r hx))
    cases hp : truthy (dictGet r "private") with
    | true => exact ⟨out, by rw [parse_cons_private r rest hp]; exact hout⟩
    | false =>
      obtain ⟨d, hd⟩ :=
        build_repo_dict_isSome_of_licenseOk r (h r (List.mem_cons_self r rest))
      refine ⟨d :: out, ?_⟩
      rw [parse_cons_public r rest d hp hd, hout]

/-- The worked example of spec section 8: an MIT-licensed public record and
a private record transform into the single reshaped public entry. -/
theorem parse_spec_section8_example :
    parse_starred_repos
      [[("name", Json.str "a"), ("private", Json.bool false),
        ("description", Json.null), ("html_url", Json.str "u1"),
        ("topics", Json.arr []), ("license", Json.obj [("name", Json.str "MIT")])],
       [("name", Json.str "b"), ("private", Json.bool true)]] =
    some [[("name", Json.str "a"), ("description", Json.null),
           ("URL", Json.str "u1"), ("license", Json.str "MIT"),
           ("topics", Json.arr [])]] := rfl

/-- Inversion of a successful request: a 200 answer forces a 200 token
exchange with a truthy token, 200 upstream fetches, the raw starred list as
fetched, its length as the count, and a successful parse as the entries. -/
theorem show_ok_inversion (u : Upstream) (c : Nat)
    (out : List (List (String × Json)))
    (h : show_starred_repositories u = ReqResult.ok c out) :
    c = u.starred_repos_res_json.length ∧
    parse_starred_repos u.starred_repos_res_json = some out := by
  unfold show_starred_repositories at h
  cases hft : fetch_access_token u with
  | error e => rw [hft] at h; exact ReqResult.noConfusion h
  | ok tok =>
    rw [hft] at h
    dsimp only at h
    cases hv : truthy tok with
    | false => rw [hv] at h; simp at h
    | true =>
      rw [hv] at h
      simp only [Bool.not_true, Bool.false_eq_true, if_false] at h
      cases hfu : fetch_user u with
      | error e => rw [hfu] at h; exact ReqResult.noConfusion h
      | ok user =>
        rw [hfu] at h
        dsimp only at h
        cases hfs : fetch_starred_repos user u with
        | error e => rw [hfs] at h; exact ReqResult.noConfusion h
        | ok starred =>
          rw [hfs] at h
          have hstar : starred = u.starred_repos_res_json := by
            unfold fetch_starred_repos at hfs
            split at hfs
            · exact Except.noConfusion hfs
            · injection hfs with hfs
              exact hfs.symm
          subst hstar
          dsimp only at h
          cases hp : parse_starred_repos u.starred_repos_res_json with
          | none => rw [hp] at h; dsimp only at h; exact ReqResult.noConfusion h
          | some parsed =>
            rw [hp] at h
            dsimp only at h
            injection h with h1 h2
            exact ⟨h1.symm, by rw [h2]⟩

/-- C1: in every successful orchestrator answer, the reported count is the
length of the raw (pre-filter) starred list — private entries included —
while the listed entries are the projections of exactly the non-private
records. -/
theorem c1_count_is_raw_length (u : Upstream) (c : Nat)
    (out : List (List (String × Json)))
    (h : show_starred_repositories u = ReqResult.ok c out) :
    c = u.starred_repos_res_json.length ∧
    out = (u.starred_repos_res_json.filter isPublic).filterMap build_repo_dict := by
  obtain ⟨hc, hp⟩ := show_ok_inversion u c out h
  exact ⟨hc, (parse_spec _ out hp).1⟩

/-- C1 witness: a raw list with one public and one private record yields
count 2 but a single listed entry. -/
theorem c1_count_is_raw_length_witness :
    (2 : Nat) =
      (Upstream.mk 200 [("access_token", Json.str "t")] 200 [("login", Json.str "me")] 200
        [[("name", Json.str "a"), ("private", Json.bool false)],
         [("name", Json.str "b"), ("private", Json.bool true)]]).starred_repos_res_json.length ∧
    [[("name", Json.str "a"), ("description", Json.null),
      ("URL", Json.null), ("topics", Json.null)]] =
      (((Upstream.mk 200 [("access_token", Json.str "t")] 200 [("login", Json.str "me")] 200
        [[("name", Json.str "a"), ("private", Json.bool false)],
         [("name", Json.str "b"), ("private", Json.bool true)]]).starred_repos_res_json.filter
            isPublic).filterMap build_repo_dict) :=
  c1_count_is_raw_length _ 2
    [[("name", Json.str "a"), ("description", Json.null),
      ("URL", Json.null), ("topics", Json.null)]] rfl

/-- C2 counterexample: a record whose "private" value is the truthy string
"yes" — hence not the boolean true — is nonetheless skipped by the
transformer, so the claim as stated fails on it. -/
theorem c2_counterexample :
    dictGet [("name", Json.str "x"), ("private", Json.str "yes")] "private" ≠ Json.bool true ∧
    parse_starred_repos [[("name", Json.str "x"), ("private", Json.str "yes")]] = some [] :=
  ⟨fun h => Json.noConfusion h, rfl⟩

/-- C2 (amended): whenever the transformer completes without raising, it
produces no output entry for records whose private value is truthy, and
exactly one output entry for every record whose private value is falsy,
preserving relative order. -/
theorem c2_filter_characterization (repos : List RawRepo)
    (out : List (List (String × Json)))
    (h : parse_starred_repos repos = some out) :
    out = (repos.filter isPublic).filterMap build_repo_dict ∧
    out.length = (repos.filter isPublic).length :=
  parse_spec repos out h

/-- C2 witness: concrete run with one truthy-private and one falsy-private
record. -/
theorem c2_filter_characterization_witness :
    [[("name", Json.str "x"), ("description", Json.null),
      ("URL", Json.null), ("topics", Json.null)]] =
      (([[("private", Json.bool true)],
         [("name", Json.str "x")]].filter isPublic).filterMap build_repo_dict) ∧
    ([[("name", Json.str "x"), ("description", Json.null),
       ("URL", Json.null), ("topics", Json.null)]]).length =
      ([[("private", Json.bool true)],
        [("name", Json.str "x")]].filter isPublic).length :=
  c2_filter_characterization
    [[("private", Json.bool true)], [("name", Json.str "x")]]
    [[("name", Json.str "x"), ("description", Json.null),
      ("URL", Json.null), ("topics", Json.null)]] rfl

/-- C10: the transformer never produces more entries than it was given, and
a successful orchestrator answer never lists more entries than its reported
count. -/
theorem c10_output_le_count :
    (∀ (l : List RawRepo) (out : List (List (String × Json))),
       parse_starred_repos l = some out → out.length ≤ l.length) ∧
    (∀ (u : Upstream) (c : Nat) (out : List (List (String × Json))),
       show_starred_repositories u = ReqResult.ok c out → out.length ≤ c) := by
  constructor
  · intro l out h
    rw [(parse_spec l out h).2]
    exact List.length_filter_le _ _
  · intro u c out h
    obtain ⟨hc, hp⟩ := show_ok_inversion u c out h
    rw [hc, (parse_spec _ out hp).2]
    exact List.length_filter_le _ _

/-- C10 witness: one private record in, zero entries out, zero at most
one. -/
theorem c10_output_le_count_witness :
    ([] : List (List (String × Json))).length ≤
      [([("private", Json.bool true)] : RawRepo)].length :=
  c10_output_le_count.1 [[("private", Json.bool true)]] [] rfl

/-- A processable license value is either null (or absent) or a
dictionary. -/
theorem licenseOk_elim (r : RawRepo) (h : licenseOk r = true) :
    dictGet r "license" = Json.null ∨
    ∃ fields, dictGet r "license" = Json.obj fields := by
  unfold licenseOk at h
  split at h
  · left; assumption
  · right; exact ⟨_, by assumption⟩
  · exact absurd h (by simp)

/-- C3: for a non-private entry, the produced record has key order name,
description, URL, license, topics when the entry carries a license
dictionary, and key order name, description, URL, topics — with no license
key at all — when the entry has no license. -/
theorem c3_field_order (repo : RawRepo)
    (hpriv : truthy (dictGet repo "private") = false) :
    (∀ fields, dictGet repo "license" = Json.obj fields →
       ∃ d, parse_starred_repos [repo] = some [d] ∧
         d.map Prod.fst = ["name", "description", "URL", "license", "topics"]) ∧
    (dictGet repo "license" = Json.null →
       ∃ d, parse_starred_repos [repo] = some [d] ∧
         d.map Prod.fst = ["name", "description", "URL", "topics"] ∧
         "license" ∉ d.map Prod.fst) := by
  constructor
  · intro fields hf
    refine ⟨[("name", dictGet repo "name"), ("description", dictGet repo "description"),
             ("URL", dictGet repo "html_url"), ("license", dictGet fields "name"),
             ("topics", dictGet repo "topics")], ?_, rfl⟩
    rw [parse_cons_public repo [] _ hpriv (build_repo_dict_of_obj repo fields hf)]
    rfl
  · intro hf
    refine ⟨[("name", dictGet repo "name"), ("description", dictGet repo "description"),
             ("URL", dictGet repo "html_url"), ("topics", dictGet repo "topics")],
            ?_, rfl, by simp⟩
    rw [parse_cons_public repo [] _ hpriv (build_repo_dict_of_null repo hf)]
    rfl

/-- C3 witness: one entry with an MIT license dictionary, one entry with no
license field. -/
theorem c3_field_order_witness :
    (∃ d, parse_starred_repos
        [[("private", Json.bool false),
          ("license", Json.obj [("name", Json.str "MIT")])]] = some [d] ∧
      d.map Prod.fst = ["name", "description", "URL", "license", "topics"]) ∧
    (∃ d, parse_starred_repos [[("name", Json.str "n")]] = some [d] ∧
      d.map Prod.fst = ["name", "description", "URL", "topics"] ∧
      "license" ∉ d.map Prod.fst) :=
  ⟨(c3_field_order
      [("private", Json.bool false),
       ("license", Json.obj [("name", Json.str "MIT")])] rfl).1
     [("name", Json.str "MIT")] rfl,
   (c3_field_order [("name", Json.str "n")] rfl).2 rfl⟩

/-- C4 counterexample: on a 200 token response with an empty JSON body the
handler raises 400 with detail "Access token missing." — with a trailing
period — which is not the string the claim asserts. -/
theorem c4_counterexample :
    show_starred_repositories (Upstream.mk 200 [] 200 [] 200 []) =
      ReqResult.httpError 400 "Access token missing." ∧
    "Access token missing." ≠ "Access token missing" :=
  ⟨rfl, by decide⟩

/-- C4 (amended): a 200 token response whose body lacks the access_token
field makes the handler answer 400 with detail "Access token missing."
(trailing period included), whatever the identity and starred responses
would have been — they are never consulted. -/
theorem c4_missing_token_400 (tb : List (String × Json))
    (h : "access_token" ∉ tb.map Prod.fst) :
    ∀ (us : Nat) (ub : List (String × Json)) (ss : Nat) (sb : List RawRepo),
      show_starred_repositories (Upstream.mk 200 tb us ub ss sb) =
        ReqResult.httpError 400 "Access token missing." := by
  intro us ub ss sb
  have hnull : dictGet tb "access_token" = Json.null :=
    dictGet_eq_null_of_not_mem tb _ h
  have htok : fetch_access_token (Upstream.mk 200 tb us ub ss sb) =
      Except.ok Json.null := by
    simp [fetch_access_token, hnull]
  unfold show_starred_repositories
  rw [htok]
  rfl

/-- C4 witness: the identity and starred endpoints are set to answer 500,
yet the missing token already decides the answer. -/
theorem c4_missing_token_400_witness :
    show_starred_repositories (Upstream.mk 200 [] 500 [] 500 []) =
      ReqResult.httpError 400 "Access token missing." :=
  c4_missing_token_400 [] (by decide) 500 [] 500 []

/-- C5 counterexample: a 401 at the token endpoint raises the detail
"Access token retrieving failed", not the message the claim asserts. -/
theorem c5_counterexample :
    fetch_access_token (Upstream.mk 401 [] 200 [] 200 []) =
      Except.error ⟨401, "Access token retrieving failed"⟩ ∧
    "Access token retrieving failed" ≠ "token exchange failed" :=
  ⟨rfl, by decide⟩

/-- C5 (amended): every non-200 provider status at the token endpoint makes
the exchange fail with exactly that status and the message "Access token
retrieving failed", and the handler surfaces that error unchanged. -/
theorem c5_token_error_propagated (u : Upstream)
    (h : u.access_token_res_status ≠ 200) :
    fetch_access_token u =
      Except.error ⟨u.access_token_res_status, "Access token retrieving failed"⟩ ∧
    show_starred_repositories u =
      ReqResult.httpError u.access_token_res_status "Access token retrieving failed" := by
  have hb : (u.access_token_res_status != 200) = true := bne_iff_ne.mpr h
  have hft : fetch_access_token u =
      Except.error ⟨u.access_token_res_status, "Access token retrieving failed"⟩ := by
    simp [fetch_access_token, hb]
  refine ⟨hft, ?_⟩
  unfold show_starred_repositories
  rw [hft]

/-- C5 witness: the 401 named by the claim surfaces as a 401 to the
caller. -/
theorem c5_token_error_propagated_witness :
    fetch_access_token (Upstream.mk 401 [("x", Json.null)] 200 [] 200 []) =
      Except.error ⟨401, "Access token retrieving failed"⟩ ∧
    show_starred_repositories (Upstream.mk 401 [("x", Json.null)] 200 [] 200 []) =
      ReqResult.httpError 401 "Access token retrieving failed" :=
  c5_token_error_propagated _ (by decide)

/-- C6: the login endpoint answers with a 302 redirect to the GitHub
authorize URL carrying the configured client id as the client_id query
parameter (the redirect status code is modelled from the spec, section
6). -/
theorem c6_login_redirect (client_id : String) :
    (login client_id).status_code = 302 ∧
    (login client_id).url =
      "https://github.com/login/oauth/authorize?client_id=" ++ client_id :=
  ⟨rfl, rfl⟩

/-- C7: a missing or empty ID or SECRET makes the module import fail
fatally, the process never starts, and no request is ever answered — the
failure cannot surface as a per-request error. -/
theorem c7_startup_fatal (env : List (String × String))
    (h : strFalsy (envGet env "ID") = true ∨ strFalsy (envGet env "SECRET") = true) :
    module_init env =
      StartupResult.fatal
        "GitHub OAuth credentials missing. Please set ID and SECRET in the .env file." ∧
    ∀ u, serve env u = none := by
  have hc : (strFalsy (envGet env "ID") || strFalsy (envGet env "SECRET")) = true := by
    rcases h with h | h <;> simp [h]
  have hm : module_init env =
      StartupResult.fatal
        "GitHub OAuth credentials missing. Please set ID and SECRET in the .env file." := by
    simp [module_init, hc]
  exact ⟨hm, fun u => by simp [serve, hm]⟩

/-- C7 witness: an empty ID value is fatal at startup and no request is
served. -/
theorem c7_startup_fatal_witness :
    module_init [("ID", ""), ("SECRET", "s")] =
      StartupResult.fatal
        "GitHub OAuth credentials missing. Please set ID and SECRET in the .env file." ∧
    serve [("ID", ""), ("SECRET", "s")] (Upstream.mk 200 [] 200 [] 200 []) = none :=
  ⟨(c7_startup_fatal [("ID", ""), ("SECRET", "s")] (Or.inl rfl)).1,
   (c7_startup_fatal [("ID", ""), ("SECRET", "s")] (Or.inl rfl)).2 _⟩

/-- C8 counterexample: a record whose private value is null — falsy, so
inside the claim's scope — but whose license value is the number 1 passes
the private filter and then raises (Python AttributeError on
`(1).get("name")`), so no output record is produced for it; the claim that
every falsy-private record produces an output record is false. -/
theorem c8_counterexample :
    truthy (dictGet [("private", Json.null), ("license", Json.num 1)] "private") = false ∧
    parse_starred_repos [[("private", Json.null), ("license", Json.num 1)]] = none :=
  ⟨rfl, rfl⟩

/-- C8 (amended): a record whose private value is falsy — absent, null,
false, zero, or empty — is treated as public: whenever its license value is
absent, null, or a dictionary, and the rest of the list transforms without
raising, the record produces exactly one output record, placed before the
output of the rest. -/
theorem c8_falsy_public_kept (repo : RawRepo) (rest : List RawRepo)
    (out : List (List (String × Json)))
    (hpriv : truthy (dictGet repo "private") = false)
    (hlic : licenseOk repo = true)
    (hrest : parse_starred_repos rest = some out) :
    ∃ d, build_repo_dict repo = some d ∧
      parse_starred_repos (repo :: rest) = some (d :: out) := by
  obtain ⟨d, hd⟩ := build_repo_dict_isSome_of_licenseOk repo hlic
  exact ⟨d, hd, by rw [parse_cons_public repo rest d hpriv hd, hrest]⟩

/-- C8 witness: a record with no private key at all (and no license) is
kept and projected. -/
theorem c8_falsy_public_kept_witness :
    ∃ d, build_repo_dict [("name", Json.str "r")] = some d ∧
      parse_starred_repos [[("name", Json.str "r")]] = some (d :: []) :=
  c8_falsy_public_kept [("name", Json.str "r")] [] [] rfl rfl rfl

/-- C9 counterexample: a non-private record with all four projected fields
absent but a string-valued license makes the transformer raise (Python
AttributeError on the string), so the transformer is not total as the
claim states. -/
theorem c9_counterexample :
    truthy (dictGet [("license", Json.str "MIT")] "private") = false ∧
    "name" ∉ ([("license", Json.str "MIT")] : RawRepo).map Prod.fst ∧
    parse_starred_repos [[("license", Json.str "MIT")]] = none :=
  ⟨rfl, by decide, rfl⟩

/-- C9 (amended): over records whose license value is absent, null, or a
dictionary, the transformer is total, and every one of the four projected
source fields that is absent from a record appears in that record's output
with a null value. -/
theorem c9_totality_and_null_defaults :
    (∀ (repos : List RawRepo), (∀ r ∈ repos, licenseOk r = true) →
       ∃ out, parse_starred_repos repos = some out) ∧
    (∀ (r : RawRepo), licenseOk r = true →
       ∃ d, build_repo_dict r = some d ∧
         ("name" ∉ r.map Prod.fst →
            "name" ∈ d.map Prod.fst ∧ dictGet d "name" = Json.null) ∧
         ("description" ∉ r.map Prod.fst →
            "description" ∈ d.map Prod.fst ∧ dictGet d "description" = Json.null) ∧
         ("html_url" ∉ r.map Prod.fst →
            "URL" ∈ d.map Prod.fst ∧ dictGet d "URL" = Json.null) ∧
         ("topics" ∉ r.map Prod.fst →
            "topics" ∈ d.map Prod.fst ∧ dictGet d "topics" = Json.null)) := by
  constructor
  · exact parse_total
  · intro r hlic
    rcases licenseOk_elim r hlic with hl | ⟨fields, hl⟩
    · refine ⟨_, build_repo_dict_of_null r hl, ?_, ?_, ?_, ?_⟩
      · exact fun habs => ⟨by simp, dictGet_eq_null_of_not_mem r "name" habs⟩
      · exact fun habs => ⟨by simp, dictGet_eq_null_of_not_mem r "description" habs⟩
      · exact fun habs => ⟨by simp, dictGet_eq_null_of_not_mem r "html_url" habs⟩
      · exact fun habs => ⟨by simp, dictGet_eq_null_of_not_mem r "topics" habs⟩
    · refine ⟨_, build_repo_dict_of_obj r fields hl, ?_, ?_, ?_, ?_⟩
      · exact fun habs => ⟨by simp, dictGet_eq_null_of_not_mem r "name" habs⟩
      · exact fun habs => ⟨by simp, dictGet_eq_null_of_not_mem r "description" habs⟩
      · exact fun habs => ⟨by simp, dictGet_eq_null_of_not_mem r "html_url" habs⟩
      · exact fun habs => ⟨by simp, dictGet_eq_null_of_not_mem r "topics" habs⟩

/-- C9 witness: a list with a dictionary license and an absent license
parses without raising. -/
theorem c9_totality_and_null_defaults_witness :
    ∃ out, parse_starred_repos
      [[("license", Json.obj [("name", Json.str "MIT")])],
       [("private", Json.bool true)]] = some out :=
  c9_totality_and_null_defaults.1 _ (by decide)

end StarRetriever
